import Mathlib

/-!
Shallow embedding of the Books REST API (`src/main.py`, `src/init_db.py`).

The application exposes CRUD operations over a single `Book` entity backed
by a relational table (`BookDB` from `database.py`), with a static API-key
check (`verify_api_key` from `auth.py`) on the mutating endpoints and a
statistics endpoint.  `database.py` and `auth.py` are not part of `src/`;
their behaviour is modelled from the specification, and every such
definition is flagged with `Modelled from the spec:` in its doc comment.
All other definitions are direct translations of the handlers in
`src/main.py`.
-/

namespace BooksApi

/-- Modelled from the spec: a row of the external store's book table
(`BookDB`, `database.py`, absent from src/).  The spec states that the
field constraints are "enforced at the boundary, not by the store", so
every non-key column may hold NULL and the store accepts any values. -/
structure StoredBook where
  id : Int
  title : Option String
  author : Option String
  year : Option Int
  isbn : Option String
deriving DecidableEq

/-- Modelled from the spec: the external relational store, a single table
of books together with the autoincrement counter it uses to assign
system-generated ids on insertion. -/
structure Store where
  books : List StoredBook
  nextId : Int
deriving DecidableEq

/-- Request payload of the pydantic model `Book` (main.py lines 17-22):
`id` optional and unconstrained, `title`/`author`/`year` required,
`isbn` optional. -/
structure BookPayload where
  id : Option Int
  title : String
  author : String
  year : Int
  isbn : Option String
deriving DecidableEq

/-- Request payload of the pydantic model `BookUpdate` (main.py lines
24-28).  Every field is `Optional` with default `None`; pydantic
distinguishes a field absent from the request body (outer `none`,
excluded by `model_dump` with `exclude_unset`) from a field explicitly
set to `null` (value `some none`, which passes validation because the
annotation is `Optional`). -/
structure BookUpdatePayload where
  title : Option (Option String)
  author : Option (Option String)
  year : Option (Option Int)
  isbn : Option (Option String)
deriving DecidableEq

/-- The three client-error kinds of the API: 422 validation failure,
401/403 credential failure, 404 missing id. -/
inductive ApiError where
  | validationError
  | authError
  | notFound
deriving DecidableEq

/-- Pydantic constraint on `title`: `min_length=1, max_length=200`
(string length counted in characters). -/
def validTitle (t : String) : Bool :=
  decide (1 ≤ t.length ∧ t.length ≤ 200)

/-- Pydantic constraint on `author`: `min_length=1, max_length=100`. -/
def validAuthor (a : String) : Bool :=
  decide (1 ≤ a.length ∧ a.length ≤ 100)

/-- Pydantic constraint on `year`: `ge=1000, le=datetime.now().year`;
the current calendar year is a parameter of the model. -/
def validYear (currentYear y : Int) : Bool :=
  decide (1000 ≤ y ∧ y ≤ currentYear)

/-- Pydantic constraint on `isbn`: `min_length=10, max_length=13`,
checked only when a string is present (the field is `Optional`). -/
def validIsbn : Option String → Bool
  | none => true
  | some s => decide (10 ≤ s.length ∧ s.length ≤ 13)

/-- Pydantic acceptance of a full `Book` payload (main.py lines 17-22):
all bounds hold; the `id` field carries no constraint. -/
def BookPayload.valid (currentYear : Int) (p : BookPayload) : Bool :=
  validTitle p.title && validAuthor p.author &&
    validYear currentYear p.year && validIsbn p.isbn

/-- Pydantic acceptance of one `Optional[str]` field of `BookUpdate`:
the length bounds are checked only when a string value is supplied;
an absent field and an explicit `null` both pass. -/
def validOptStr (lo hi : Nat) : Option (Option String) → Bool
  | some (some s) => decide (lo ≤ s.length ∧ s.length ≤ hi)
  | _ => true

/-- Pydantic acceptance of the `Optional[int]` field `year` of
`BookUpdate`: bounds checked only on a supplied integer. -/
def validOptYear (currentYear : Int) : Option (Option Int) → Bool
  | some (some y) => decide (1000 ≤ y ∧ y ≤ currentYear)
  | _ => true

/-- Pydantic acceptance of a `BookUpdate` payload (main.py lines 24-28). -/
def BookUpdatePayload.valid (currentYear : Int) (u : BookUpdatePayload) : Bool :=
  validOptStr 1 200 u.title && validOptStr 1 100 u.author &&
    validOptYear currentYear u.year && validOptStr 10 13 u.isbn

/-- Modelled from the spec: `verify_api_key` (`auth.py`, absent from
src/) — the caller-supplied credential must equal the single configured
secret; absence or mismatch is an authentication failure. -/
def verify_api_key (secret : String) (apiKey : Option String) : Bool :=
  match apiKey with
  | some k => decide (k = secret)
  | none => false

/-- The store lookup `db.query(BookDB).filter(BookDB.id == book_id).first()`:
first row whose id matches. -/
def Store.findBook (db : Store) (book_id : Int) : Option StoredBook :=
  db.books.find? (fun b => decide (b.id = book_id))

/-- Lowercasing of one character, Modelled from the spec: the store's
`ilike` comparison is case-insensitive; this covers the Latin and
Cyrillic (А-Я, Ё) letters appearing in the repository's data. -/
def charLower (c : Char) : Char :=
  if 65 ≤ c.toNat ∧ c.toNat ≤ 90 then Char.ofNat (c.toNat + 32)
  else if 1040 ≤ c.toNat ∧ c.toNat ≤ 1071 then Char.ofNat (c.toNat + 32)
  else if c.toNat = 1025 then Char.ofNat 1105
  else c

/-- Lowercase every character of a string. -/
def lowerStr (s : String) : String :=
  ⟨s.data.map charLower⟩

/-- Does `needle` occur as a contiguous run inside `hay`? -/
def listContainsSub (needle : List Char) : List Char → Bool
  | [] => needle.isEmpty
  | c :: rest => needle.isPrefixOf (c :: rest) || listContainsSub needle rest

/-- Case-insensitive substring containment: the semantics of
`BookDB.author.ilike(f"%{author}%")` (main.py line 51). -/
def containsCI (hay needle : String) : Bool :=
  listContainsSub (lowerStr needle).data (lowerStr hay).data

/-- One row against the author filter: SQL `NULL ilike ...` is not true,
so a row with NULL author never matches. -/
def matchAuthor (filt : String) (b : StoredBook) : Bool :=
  match b.author with
  | some a => containsCI a filt
  | none => false

/-- One row against `BookDB.year >= year_from`; NULL year never matches. -/
def matchYearFrom (yf : Int) (b : StoredBook) : Bool :=
  match b.year with
  | some y => decide (yf ≤ y)
  | none => false

/-- One row against `BookDB.year <= year_to`; NULL year never matches. -/
def matchYearTo (yt : Int) (b : StoredBook) : Bool :=
  match b.year with
  | some y => decide (y ≤ yt)
  | none => false

/-- Python truthiness of `Optional[str]`: `None` and `""` are falsy. -/
def truthyStr : Option String → Bool
  | none => false
  | some s => decide (s ≠ "")

/-- Python truthiness of `Optional[int]`: `None` and `0` are falsy. -/
def truthyInt : Option Int → Bool
  | none => false
  | some n => decide (n ≠ 0)

/-- GET /api/books (main.py lines 32-58): apply the author filter when
`author` is truthy, the year bounds when truthy, then
`offset(skip).limit(limit)` pagination over the filtered rows. -/
def get_books (skip limit : Nat) (author : Option String)
    (year_from year_to : Option Int) (db : Store) : List StoredBook :=
  let q := db.books
  let q := if truthyStr author then q.filter (matchAuthor (author.getD "")) else q
  let q := if truthyInt year_from then q.filter (matchYearFrom (year_from.getD 0)) else q
  let q := if truthyInt year_to then q.filter (matchYearTo (year_to.getD 0)) else q
  (q.drop skip).take limit

/-- GET /api/books/\x7bbook_id\x7d (main.py lines 62-73): the matching
record, or a 404 error.  No credential is involved. -/
def get_book (book_id : Int) (db : Store) : Except ApiError StoredBook :=
  match db.findBook book_id with
  | some book => .ok book
  | none => .error .notFound

/-- POST /api/books (main.py lines 77-88): after the auth dependency and
pydantic validation, build a row from the payload with `id` excluded,
insert it (the store assigns `nextId`), and return the stored record.
On any error the store is untouched. -/
def create_book (secret : String) (currentYear : Int) (apiKey : Option String)
    (book : BookPayload) (db : Store) : Except ApiError StoredBook × Store :=
  if !verify_api_key secret apiKey then (.error .authError, db)
  else if !book.valid currentYear then (.error .validationError, db)
  else
    let db_book : StoredBook :=
      { id := db.nextId, title := some book.title, author := some book.author,
        year := some book.year, isbn := book.isbn }
    (.ok db_book, { books := db.books ++ [db_book], nextId := db.nextId + 1 })

/-- PUT /api/books/\x7bbook_id\x7d (main.py lines 92-112): auth, then
validation of the full payload, then lookup; on success every non-id
column of the row is overwritten with the payload values (the payload's
`id` is excluded by `model_dump`) and the row is persisted. -/
def update_book (secret : String) (currentYear : Int) (apiKey : Option String)
    (book_id : Int) (updated_book : BookPayload) (db : Store) :
    Except ApiError StoredBook × Store :=
  if !verify_api_key secret apiKey then (.error .authError, db)
  else if !updated_book.valid currentYear then (.error .validationError, db)
  else
    match db.findBook book_id with
    | none => (.error .notFound, db)
    | some book =>
      let book2 : StoredBook :=
        { id := book.id, title := some updated_book.title,
          author := some updated_book.author, year := some updated_book.year,
          isbn := updated_book.isbn }
      (.ok book2,
       { db with books := db.books.map (fun r => if r.id = book_id then book2 else r) })

/-- The `setattr` loop of the PATCH handler (main.py lines 131-133):
every field present in `model_dump(exclude_unset=True)` is written to
the row (an explicit `null` writes NULL); absent fields are untouched. -/
def applyUpdate (book : StoredBook) (u : BookUpdatePayload) : StoredBook :=
  { id := book.id
  , title := match u.title with | some v => v | none => book.title
  , author := match u.author with | some v => v | none => book.author
  , year := match u.year with | some v => v | none => book.year
  , isbn := match u.isbn with | some v => v | none => book.isbn }

/-- PATCH /api/books/\x7bbook_id\x7d, the handler named
`partial_update_book` in main.py lines 116-137: auth, validation of the
update payload, lookup, then the `setattr` loop over the explicitly
present fields, and the row is persisted. -/
def patch_book (secret : String) (currentYear : Int) (apiKey : Option String)
    (book_id : Int) (book_update : BookUpdatePayload) (db : Store) :
    Except ApiError StoredBook × Store :=
  if !verify_api_key secret apiKey then (.error .authError, db)
  else if !book_update.valid currentYear then (.error .validationError, db)
  else
    match db.findBook book_id with
    | none => (.error .notFound, db)
    | some book =>
      let book2 := applyUpdate book book_update
      (.ok book2,
       { db with books := db.books.map (fun r => if r.id = book_id then book2 else r) })

/-- DELETE /api/books/\x7bbook_id\x7d (main.py lines 161-177): auth, then
lookup; on success the row with that id is removed (204, no body). -/
def delete_book (secret : String) (apiKey : Option String) (book_id : Int)
    (db : Store) : Except ApiError Unit × Store :=
  if !verify_api_key secret apiKey then (.error .authError, db)
  else
    match db.findBook book_id with
    | none => (.error .notFound, db)
    | some _ =>
      (.ok (),
       { db with books := db.books.filter (fun r => !decide (r.id = book_id)) })

/-- The century bucket of a year, `year // 100 + 1` with Python floor
division (main.py line 151). -/
def century (y : Int) : Int :=
  Int.fdiv y 100 + 1

/-- One step of Python's `collections.Counter`: increment the count of a
key, inserting it at the end on first sight. -/
def counterAdd {α : Type} [DecidableEq α] (l : List (α × Nat)) (x : α) :
    List (α × Nat) :=
  match l with
  | [] => [(x, 1)]
  | (a, n) :: t => if a = x then (a, n + 1) :: t else (a, n) :: counterAdd t x

/-- Python's `collections.Counter` over a list of keys, as an association
list in first-seen order. -/
def counter {α : Type} [DecidableEq α] (xs : List α) : List (α × Nat) :=
  xs.foldl counterAdd []

/-- Look a key up in a counter; a missing key counts 0. -/
def lookupCount {α : Type} [DecidableEq α] (l : List (α × Nat)) (k : α) : Nat :=
  match l with
  | [] => 0
  | (a, n) :: t => if a = k then n else lookupCount t k

/-- The aggregate object returned by GET /api/stats/books.  The response
renders each century key as the string `f"\x7bcentury\x7d век"`; the
numeric century is modelled as the key. -/
structure Stats where
  total_books : Nat
  books_by_author : List (Option String × Nat)
  books_by_century : List (Int × Nat)
deriving DecidableEq

/-- GET /api/stats/books (main.py lines 141-157): load every row, count
them, and build `Counter`s keyed by author and by century.  A row whose
year column is NULL makes `book.year // 100` raise a `TypeError`
(modelled as `none`); a NULL author is an ordinary `Counter` key. -/
def get_statistics (db : Store) : Option Stats :=
  if db.books.all (fun b => b.year.isSome) then
    some
      { total_books := db.books.length
      , books_by_author := counter (db.books.map (fun b => b.author))
      , books_by_century := counter (db.books.map (fun b => century (b.year.getD 0))) }
  else none

/-- The first seed record of init_db.py. -/
def seed1 : StoredBook :=
  { id := 1, title := some "Война и мир", author := some "Лев Толстой",
    year := some 1869, isbn := some "9785170987654" }

/-- The second seed record of init_db.py. -/
def seed2 : StoredBook :=
  { id := 2, title := some "Преступление и наказание",
    author := some "Федор Достоевский", year := some 1866,
    isbn := some "9785170876543" }

/-- The third seed record of init_db.py. -/
def seed3 : StoredBook :=
  { id := 3, title := some "Евгений Онегин", author := some "Александр Пушкин",
    year := some 1833, isbn := some "9785170765432" }

/-- The store after init_db.py seeds an empty database. -/
def seededStore : Store :=
  { books := [seed1, seed2, seed3], nextId := 4 }

/-- A sample valid full payload for concrete instantiations. -/
def p0 : BookPayload :=
  { id := none, title := "Мать", author := "Максим Горький",
    year := 1906, isbn := none }

/-- The update payload with no field present. -/
def u0 : BookUpdatePayload :=
  { title := none, author := none, year := none, isbn := none }

/-- C8: the list operation applies its author, year_from and year_to
filters only when the supplied value is truthy: an empty author string,
or a year bound equal to 0, behaves exactly as an absent filter. -/
theorem get_books_truthy_filters (skip limit : Nat) (a : Option String)
    (yf yt : Option Int) (db : Store) :
    get_books skip limit (some "") yf yt db = get_books skip limit none yf yt db ∧
    get_books skip limit a (some 0) yt db = get_books skip limit a none yt db ∧
    get_books skip limit a yf (some 0) db = get_books skip limit a yf none db := by
  refine ⟨?_, ?_, ?_⟩ <;> simp [get_books, truthyStr, truthyInt]

/-- C1: evaluation of the PATCH handler at the failing input.  On a
store holding the seeded record with id 1, a partial update whose
payload explicitly sets `title` to null passes the `BookUpdate`
validation (the field is `Optional`), succeeds, and persists a record
whose `title` is NULL — violating the invariant that every persisted
record has a title of 1 to 200 characters. -/
theorem patch_persists_null_title :
    (patch_book "secret" 2026 (some "secret") 1
        { title := some none, author := none, year := none, isbn := none }
        { books := [seed1], nextId := 2 }).1 =
      .ok { id := 1, title := none, author := some "Лев Толстой",
            year := some 1869, isbn := some "9785170987654" } ∧
    ∃ b ∈ (patch_book "secret" 2026 (some "secret") 1
        { title := some none, author := none, year := none, isbn := none }
        { books := [seed1], nextId := 2 }).2.books, b.title = none := by
  refine ⟨rfl, ?_⟩
  refine ⟨{ id := 1, title := none, author := some "Лев Толстой",
            year := some 1869, isbn := some "9785170987654" }, ?_, rfl⟩
  decide

/-- C4: with a matching credential, a create whose year is below 1000 or
above the current calendar year fails with a validation error before any
store interaction, and the store is returned exactly as it was. -/
theorem create_rejects_out_of_range_year (secret : String) (currentYear : Int)
    (p : BookPayload) (db : Store)
    (hy : p.year < 1000 ∨ currentYear < p.year) :
    create_book secret currentYear (some secret) p db =
      (.error .validationError, db) := by
  have hY : validYear currentYear p.year = false := by
    simp only [validYear, decide_eq_false_iff_not]
    rintro ⟨h1, h2⟩
    rcases hy with h | h <;> omega
  have hv : p.valid currentYear = false := by
    simp [BookPayload.valid, hY]
  simp [create_book, verify_api_key, hv]

/-- Witness for C4 at the concrete payload with year 3000. -/
theorem create_rejects_out_of_range_year_witness :
    ((3000 : Int) < 1000 ∨ (2026 : Int) < 3000) ∧
    create_book "k" 2026 (some "k")
        { id := none, title := "t", author := "a", year := 3000, isbn := none }
        { books := [], nextId := 1 } =
      (.error .validationError, { books := [], nextId := 1 }) :=
  ⟨Or.inr (by decide),
   create_rejects_out_of_range_year "k" 2026
     { id := none, title := "t", author := "a", year := 3000, isbn := none }
     { books := [], nextId := 1 } (Or.inr (by decide))⟩

/-- C5: a mutating operation with an absent or mismatched credential
fails with an auth error and returns the store unchanged, while the
read operation get-by-id involves no credential check: it can only
return the record or not-found (list and stats take no credential at
all). -/
theorem mutations_require_credential (secret : String) (apiKey : Option String)
    (currentYear : Int) (p : BookPayload) (u : BookUpdatePayload)
    (book_id : Int) (db : Store) (hk : apiKey ≠ some secret) :
    create_book secret currentYear apiKey p db = (.error .authError, db) ∧
    update_book secret currentYear apiKey book_id p db = (.error .authError, db) ∧
    patch_book secret currentYear apiKey book_id u db = (.error .authError, db) ∧
    delete_book secret apiKey book_id db = (.error .authError, db) ∧
    get_book book_id db ≠ .error .authError := by
  have hv : verify_api_key secret apiKey = false := by
    cases apiKey with
    | none => rfl
    | some k =>
      simp only [verify_api_key, decide_eq_false_iff_not]
      intro h
      exact hk (by rw [h])
  refine ⟨?_, ?_, ?_, ?_, ?_⟩
  · simp [create_book, hv]
  · simp [update_book, hv]
  · simp [patch_book, hv]
  · simp [delete_book, hv]
  · unfold get_book
    cases db.findBook book_id <;> simp

/-- Witness for C5 with an absent credential against the seeded store. -/
theorem mutations_require_credential_witness :
    ((none : Option String) ≠ some "k") ∧
    (create_book "k" 2026 none p0 seededStore = (.error .authError, seededStore) ∧
     update_book "k" 2026 none 1 p0 seededStore = (.error .authError, seededStore) ∧
     patch_book "k" 2026 none 1 u0 seededStore = (.error .authError, seededStore) ∧
     delete_book "k" none 1 seededStore = (.error .authError, seededStore) ∧
     get_book 1 seededStore ≠ .error .authError) :=
  ⟨by decide, mutations_require_credential "k" none 2026 p0 u0 1 seededStore (by decide)⟩

/-- C2: with a matching credential and a payload passing validation, a
partial update of an existing record replaces exactly the fields
explicitly present in the payload, keeps every absent field and the id
at their prior values, touches no other record, and an all-absent
payload is a no-op leaving the record unchanged. -/
theorem patch_updates_only_present_fields (secret : String) (currentYear : Int)
    (book_id : Int) (u : BookUpdatePayload) (db : Store) (b : StoredBook)
    (hv : u.valid currentYear = true) (hf : db.findBook book_id = some b) :
    ∃ b2, (patch_book secret currentYear (some secret) book_id u db).1 = .ok b2 ∧
      (patch_book secret currentYear (some secret) book_id u db).2.books =
        db.books.map (fun r => if r.id = book_id then b2 else r) ∧
      b2.id = b.id ∧
      (∀ v, u.title = some v → b2.title = v) ∧
      (u.title = none → b2.title = b.title) ∧
      (∀ v, u.author = some v → b2.author = v) ∧
      (u.author = none → b2.author = b.author) ∧
      (∀ v, u.year = some v → b2.year = v) ∧
      (u.year = none → b2.year = b.year) ∧
      (∀ v, u.isbn = some v → b2.isbn = v) ∧
      (u.isbn = none → b2.isbn = b.isbn) ∧
      (u = u0 → b2 = b) := by
  have hkey : verify_api_key secret (some secret) = true := by
    simp [verify_api_key]
  refine ⟨applyUpdate b u, ?_, ?_, rfl, ?_, ?_, ?_, ?_, ?_, ?_, ?_, ?_, ?_⟩
  · simp [patch_book, hkey, hv, hf]
  · simp [patch_book, hkey, hv, hf]
  · intro v h
    simp [applyUpdate, h]
  · intro h
    simp [applyUpdate, h]
  · intro v h
    simp [applyUpdate, h]
  · intro h
    simp [applyUpdate, h]
  · intro v h
    simp [applyUpdate, h]
  · intro h
    simp [applyUpdate, h]
  · intro v h
    simp [applyUpdate, h]
  · intro h
    simp [applyUpdate, h]
  · intro h
    subst h
    rfl

/-- Witness for C2: the all-absent payload against the seeded store. -/
theorem patch_updates_only_present_fields_witness :
    u0.valid 2026 = true ∧ seededStore.findBook 1 = some seed1 ∧
    (∃ b2, (patch_book "k" 2026 (some "k") 1 u0 seededStore).1 = .ok b2 ∧
      (patch_book "k" 2026 (some "k") 1 u0 seededStore).2.books =
        seededStore.books.map (fun r => if r.id = 1 then b2 else r) ∧
      b2.id = seed1.id ∧
      (∀ v, u0.title = some v → b2.title = v) ∧
      (u0.title = none → b2.title = seed1.title) ∧
      (∀ v, u0.author = some v → b2.author = v) ∧
      (u0.author = none → b2.author = seed1.author) ∧
      (∀ v, u0.year = some v → b2.year = v) ∧
      (u0.year = none → b2.year = seed1.year) ∧
      (∀ v, u0.isbn = some v → b2.isbn = v) ∧
      (u0.isbn = none → b2.isbn = seed1.isbn) ∧
      (u0 = u0 → b2 = seed1)) :=
  ⟨by decide, by decide,
   patch_updates_only_present_fields "k" 2026 1 u0 seededStore seed1
     (by decide) (by decide)⟩

/-- C3: with a matching credential and a payload passing validation, a
full update fails with not-found when the id is absent, and otherwise
overwrites every non-id field with the supplied values, keeps the id,
persists the new row in place, and returns it. -/
theorem put_replaces_all_fields (secret : String) (currentYear : Int)
    (book_id : Int) (p : BookPayload) (db : Store)
    (hv : p.valid currentYear = true) :
    (db.findBook book_id = none →
      update_book secret currentYear (some secret) book_id p db =
        (.error .notFound, db)) ∧
    (∀ b, db.findBook book_id = some b →
      ∃ b2, (update_book secret currentYear (some secret) book_id p db).1 = .ok b2 ∧
        (update_book secret currentYear (some secret) book_id p db).2.books =
          db.books.map (fun r => if r.id = book_id then b2 else r) ∧
        b2.id = b.id ∧ b2.title = some p.title ∧ b2.author = some p.author ∧
        b2.year = some p.year ∧ b2.isbn = p.isbn) := by
  have hkey : verify_api_key secret (some secret) = true := by
    simp [verify_api_key]
  constructor
  · intro hf
    simp [update_book, hkey, hv, hf]
  · intro b hf
    refine ⟨{ id := b.id, title := some p.title, author := some p.author,
              year := some p.year, isbn := p.isbn }, ?_, ?_, rfl, rfl, rfl, rfl, rfl⟩ <;>
      simp [update_book, hkey, hv, hf]

/-- Witness for C3: full update of the seeded record with id 1. -/
theorem put_replaces_all_fields_witness :
    p0.valid 2026 = true ∧
    ((seededStore.findBook 1 = none →
      update_book "k" 2026 (some "k") 1 p0 seededStore =
        (.error .notFound, seededStore)) ∧
    (∀ b, seededStore.findBook 1 = some b →
      ∃ b2, (update_book "k" 2026 (some "k") 1 p0 seededStore).1 = .ok b2 ∧
        (update_book "k" 2026 (some "k") 1 p0 seededStore).2.books =
          seededStore.books.map (fun r => if r.id = 1 then b2 else r) ∧
        b2.id = b.id ∧ b2.title = some p0.title ∧ b2.author = some p0.author ∧
        b2.year = some p0.year ∧ b2.isbn = p0.isbn)) :=
  ⟨by decide, put_replaces_all_fields "k" 2026 1 p0 seededStore (by decide)⟩

/-- C9: with a matching credential, deleting an existing id succeeds
with no body, removes exactly the rows with that id while keeping every
other record, and a subsequent get-by-id fails with not-found; deleting
an absent id fails with not-found and leaves the store unchanged. -/
theorem delete_then_get_not_found (secret : String) (book_id : Int) (db : Store) :
    (db.findBook book_id = none →
      delete_book secret (some secret) book_id db = (.error .notFound, db)) ∧
    (∀ b, db.findBook book_id = some b →
      (delete_book secret (some secret) book_id db).1 = .ok () ∧
      (delete_book secret (some secret) book_id db).2.books =
        db.books.filter (fun r => !decide (r.id = book_id)) ∧
      get_book book_id (delete_book secret (some secret) book_id db).2 =
        .error .notFound ∧
      (∀ r ∈ db.books, r.id ≠ book_id →
        r ∈ (delete_book secret (some secret) book_id db).2.books)) := by
  have hkey : verify_api_key secret (some secret) = true := by
    simp [verify_api_key]
  constructor
  · intro hf
    simp [delete_book, hkey, hf]
  · intro b hf
    refine ⟨?_, ?_, ?_, ?_⟩
    · simp [delete_book, hkey, hf]
    · simp [delete_book, hkey, hf]
    · have h2 : (delete_book secret (some secret) book_id db).2.books =
          db.books.filter (fun r => !decide (r.id = book_id)) := by
        simp [delete_book, hkey, hf]
      have h3 : ∀ l : List StoredBook, List.find? (fun _ => false) l = none := by
        intro l
        rw [List.find?_eq_none]
        intro x hx
        simp
      simp [get_book, Store.findBook, h2, h3]
    · intro r hr hne
      simp only [delete_book, hkey, hf]
      simp [List.mem_filter, hr, hne]

/-- Witness for C9 against the seeded store at id 2. -/
theorem delete_then_get_not_found_witness :
    (seededStore.findBook 2 = none →
      delete_book "k" (some "k") 2 seededStore = (.error .notFound, seededStore)) ∧
    (∀ b, seededStore.findBook 2 = some b →
      (delete_book "k" (some "k") 2 seededStore).1 = .ok () ∧
      (delete_book "k" (some "k") 2 seededStore).2.books =
        seededStore.books.filter (fun r => !decide (r.id = 2)) ∧
      get_book 2 (delete_book "k" (some "k") 2 seededStore).2 = .error .notFound ∧
      (∀ r ∈ seededStore.books, r.id ≠ 2 →
        r ∈ (delete_book "k" (some "k") 2 seededStore).2.books)) :=
  delete_then_get_not_found "k" 2 seededStore

/-- C10: a body-supplied id is ignored.  Create behaves identically for
any payload id and assigns the store's next id to the new record; full
update behaves identically for any payload id and the updated record
keeps the id of the record found at the path id. -/
theorem body_id_ignored (secret : String) (currentYear : Int) (p : BookPayload)
    (v : Option Int) (book_id : Int) (db : Store)
    (hv : p.valid currentYear = true) :
    create_book secret currentYear (some secret) { p with id := v } db =
      create_book secret currentYear (some secret) p db ∧
    (∃ b, (create_book secret currentYear (some secret) p db).1 = .ok b ∧
      b.id = db.nextId) ∧
    update_book secret currentYear (some secret) book_id { p with id := v } db =
      update_book secret currentYear (some secret) book_id p db ∧
    (∀ b, db.findBook book_id = some b →
      ∃ b2, (update_book secret currentYear (some secret) book_id p db).1 = .ok b2 ∧
        b2.id = b.id) := by
  have hkey : verify_api_key secret (some secret) = true := by
    simp [verify_api_key]
  refine ⟨rfl, ?_, rfl, ?_⟩
  · refine ⟨{ id := db.nextId, title := some p.title, author := some p.author,
              year := some p.year, isbn := p.isbn }, ?_, rfl⟩
    simp [create_book, hkey, hv]
  · intro b hf
    refine ⟨{ id := b.id, title := some p.title, author := some p.author,
              year := some p.year, isbn := p.isbn }, ?_, rfl⟩
    simp [update_book, hkey, hv, hf]

/-- Witness for C10: payload carrying id 999 against the seeded store. -/
theorem body_id_ignored_witness :
    p0.valid 2026 = true ∧
    (create_book "k" 2026 (some "k") { p0 with id := some 999 } seededStore =
      create_book "k" 2026 (some "k") p0 seededStore ∧
    (∃ b, (create_book "k" 2026 (some "k") p0 seededStore).1 = .ok b ∧
      b.id = seededStore.nextId) ∧
    update_book "k" 2026 (some "k") 1 { p0 with id := some 999 } seededStore =
      update_book "k" 2026 (some "k") 1 p0 seededStore ∧
    (∀ b, seededStore.findBook 1 = some b →
      ∃ b2, (update_book "k" 2026 (some "k") 1 p0 seededStore).1 = .ok b2 ∧
        b2.id = b.id)) :=
  ⟨by decide, body_id_ignored "k" 2026 p0 (some 999) 1 seededStore (by decide)⟩

/-- Adding a key to a counter increments the looked-up count of that key
and leaves every other count unchanged. -/
theorem lookupCount_counterAdd {α : Type} [DecidableEq α]
    (l : List (α × Nat)) (x k : α) :
    lookupCount (counterAdd l x) k =
      lookupCount l k + (if x = k then 1 else 0) := by
  induction l with
  | nil =>
    by_cases h : x = k <;> simp [counterAdd, lookupCount, h]
  | cons hd t ih =>
    obtain ⟨a, n⟩ := hd
    by_cases hax : a = x
    · subst hax
      by_cases hak : a = k <;> simp [counterAdd, lookupCount, hak]
    · by_cases hak : a = k
      · subst hak
        have hxk : ¬ x = a := fun h => hax h.symm
        simp [counterAdd, lookupCount, hax, hxk]
      · simp [counterAdd, lookupCount, hax, hak, ih]

/-- Folding a list of keys into a counter adds each key's multiplicity. -/
theorem lookupCount_foldl {α : Type} [DecidableEq α] (xs : List α)
    (l : List (α × Nat)) (k : α) :
    lookupCount (xs.foldl counterAdd l) k =
      lookupCount l k + (xs.filter (fun x => decide (x = k))).length := by
  induction xs generalizing l with
  | nil => simp
  | cons x xs ih =>
    simp only [List.foldl_cons, ih, lookupCount_counterAdd, List.filter_cons]
    by_cases h : x = k
    · simp [h]
      omega
    · simp [h]

/-- A counter counts exactly the multiplicity of each key. -/
theorem lookupCount_counter {α : Type} [DecidableEq α] (xs : List α) (k : α) :
    lookupCount (counter xs) k = (xs.filter (fun x => decide (x = k))).length := by
  simp [counter, lookupCount_foldl, lookupCount]

/-- Adding a key to a counter grows the sum of its values by one. -/
theorem sumVals_counterAdd {α : Type} [DecidableEq α]
    (l : List (α × Nat)) (x : α) :
    ((counterAdd l x).map (fun e => e.2)).sum =
      (l.map (fun e => e.2)).sum + 1 := by
  induction l with
  | nil => simp [counterAdd]
  | cons hd t ih =>
    obtain ⟨a, n⟩ := hd
    by_cases h : a = x <;> simp [counterAdd, h, ih] <;> omega

/-- Folding keys into a counter adds the number of keys to the value sum. -/
theorem sumVals_foldl {α : Type} [DecidableEq α] (xs : List α)
    (l : List (α × Nat)) :
    ((xs.foldl counterAdd l).map (fun e => e.2)).sum =
      (l.map (fun e => e.2)).sum + xs.length := by
  induction xs generalizing l with
  | nil => simp
  | cons x xs ih =>
    simp only [List.foldl_cons, ih, sumVals_counterAdd, List.length_cons]
    omega

/-- The values of a counter sum to the number of counted keys. -/
theorem sumVals_counter {α : Type} [DecidableEq α] (xs : List α) :
    ((counter xs).map (fun e => e.2)).sum = xs.length := by
  simp [counter, sumVals_foldl]

/-- Filtering a mapped list keeps as many elements as filtering the
original list by the composed predicate. -/
theorem length_filter_map_eq {α β : Type} (f : α → β) (p : β → Bool)
    (l : List α) :
    ((l.map f).filter p).length = (l.filter (fun x => p (f x))).length := by
  induction l with
  | nil => rfl
  | cons x xs ih =>
    by_cases h : p (f x) <;> simp [List.filter_cons, h, ih]

/-- C6: on a store whose records all carry a year, the stats operation
returns the number of records as total_books, an author mapping whose
entry for each author is the number of records with exactly that author
and whose values sum to total_books, and a century mapping counting the
records of each century `year // 100 + 1`; the years 1869, 1866 and
1833 all fall in century 19. -/
theorem stats_counts_correct (db : Store)
    (h : db.books.all (fun b => b.year.isSome) = true) :
    ∃ st, get_statistics db = some st ∧
      st.total_books = db.books.length ∧
      (∀ a, lookupCount st.books_by_author a =
        (db.books.filter (fun b => decide (b.author = a))).length) ∧
      (st.books_by_author.map (fun e => e.2)).sum = st.total_books ∧
      (∀ c, lookupCount st.books_by_century c =
        (db.books.filter (fun b => decide (century (b.year.getD 0) = c))).length) ∧
      century 1869 = 19 ∧ century 1866 = 19 ∧ century 1833 = 19 := by
  refine ⟨{ total_books := db.books.length
          , books_by_author := counter (db.books.map (fun b => b.author))
          , books_by_century :=
              counter (db.books.map (fun b => century (b.year.getD 0))) },
          ?_, rfl, ?_, ?_, ?_, by decide, by decide, by decide⟩
  · simp [get_statistics, h]
  · intro a
    rw [lookupCount_counter, length_filter_map_eq]
  · simp [sumVals_counter]
  · intro c
    rw [lookupCount_counter, length_filter_map_eq]

/-- Witness for C6 against the three seeded records, whose statistics
are three books, one per author, all in century 19. -/
theorem stats_counts_correct_witness :
    (seededStore.books.all (fun b => b.year.isSome) = true) ∧
    (∃ st, get_statistics seededStore = some st ∧
      st.total_books = seededStore.books.length ∧
      (∀ a, lookupCount st.books_by_author a =
        (seededStore.books.filter (fun b => decide (b.author = a))).length) ∧
      (st.books_by_author.map (fun e => e.2)).sum = st.total_books ∧
      (∀ c, lookupCount st.books_by_century c =
        (seededStore.books.filter
          (fun b => decide (century (b.year.getD 0) = c))).length) ∧
      century 1869 = 19 ∧ century 1866 = 19 ∧ century 1833 = 19) ∧
    get_statistics seededStore = some
      { total_books := 3
      , books_by_author :=
          [(some "Лев Толстой", 1), (some "Федор Достоевский", 1),
           (some "Александр Пушкин", 1)]
      , books_by_century := [(19, 3)] } :=
  ⟨by decide, stats_counts_correct seededStore (by decide), by decide⟩

/-- C7: with the year filters absent and a non-empty author filter, the
list operation returns exactly the records whose author contains the
filter as a case-insensitive substring, then paginated; the seeded
author "Лев Толстой" matches the filter "толст". -/
theorem list_author_filter_ci (skip limit : Nat) (a : String) (db : Store)
    (ha : a ≠ "") :
    get_books skip limit (some a) none none db =
      ((db.books.filter (matchAuthor a)).drop skip).take limit ∧
    containsCI "Лев Толстой" "толст" = true := by
  constructor
  · simp [get_books, truthyStr, truthyInt, ha]
  · decide

/-- Witness for C7: the filter "толст" against the seeded store returns
exactly the record by Лев Толстой. -/
theorem list_author_filter_ci_witness :
    ("толст" : String) ≠ "" ∧
    (get_books 0 10 (some "толст") none none seededStore =
      ((seededStore.books.filter (matchAuthor "толст")).drop 0).take 10 ∧
     containsCI "Лев Толстой" "толст" = true) ∧
    get_books 0 10 (some "толст") none none seededStore = [seed1] :=
  ⟨by decide, list_author_filter_ci 0 10 "толст" seededStore (by decide), by decide⟩

end BooksApi
